import Mathlib

/-!
Shallow embedding of the ImageLab core (app/page.tsx): the pipeline
executor `applyTransformPipeline`, the code synthesizer
`generatePythonCode`, the pipeline editor `addTransformToPipeline`, and
the static `DEFAULT_PARAMS` table.

Modelling conventions:
* JavaScript numbers are idealized as exact rationals (`ℚ`); the float
  literal `2.55` is the rational `255/100`.
* 8-bit pixel stores are explicit: `toUint8` is the typed-array store
  conversion (truncate, modulo 256) used by `lut.data[i] = ...`, and
  `satCast8` is OpenCV's `saturate_cast<uchar>` (round then clamp).
* OpenCV.js primitives that the executor merely sequences (resize, warp,
  blur kernels, morphology, Canny, ...) are uninterpreted fields of a
  `Provider` structure returning `Except String Img`; a `.error` result
  models a thrown JS exception.  `Math.pow` is the uninterpreted
  `Provider.powf`.  Primitives whose documented numeric semantics the
  spec relies on (RGBA↔GRAY conversion, `cv.threshold` with
  THRESH_BINARY, `convertTo`, `cv.LUT`, `Mat.roi`) are modelled
  concretely.
* Every `new cv.Mat()` / `Mat.roi` / `matFromArray` /
  `getStructuringElement` / `new cv.MatVector()` allocation and every
  `delete()` call of the run is recorded in an event list, so the
  buffer-lifecycle properties can be read off a run.  A `delete()` call
  is modelled as appending a `free` event even when the handle was
  already deleted (real emscripten objects throw there; the event count
  exposes the double delete either way).
-/

namespace ImageLab

/-- JS `x || d` for an optional numeric value: `undefined` and `0` are
falsy and fall back to the default. -/
def jsOr (x : Option ℚ) (d : ℚ) : ℚ :=
  match x with
  | none => d
  | some v => if v = 0 then d else v

/-- JS `x ?? d`: only `undefined` falls back to the default. -/
def jsCoal (x : Option ℚ) (d : ℚ) : ℚ := x.getD d

/-- JS `s || d` for an optional string: `undefined` and `""` are falsy. -/
def jsOrStr (x : Option String) (d : String) : String :=
  match x with
  | none => d
  | some s => if s = "" then d else s

/-- JS `ToInteger` truncation toward zero of a (finite) number. -/
def jsTrunc (q : ℚ) : ℤ := if 0 ≤ q then ⌊q⌋ else ⌈q⌉

/-- JS bitwise `n | 1` (two's complement: even `n` becomes `n + 1`, odd
`n` is unchanged), after `ToInt32` truncation of the operand.  The
Int32 wrap-around is omitted: every value reaching this in the app is a
slider value in `[0, 200]`. -/
def jsOrOne (q : ℚ) : ℤ :=
  let n := jsTrunc q
  if n % 2 = 0 then n + 1 else n

/-- `cvRound`: round half to even, as OpenCV does on doubles. -/
def rnd (q : ℚ) : ℤ :=
  if q - ⌊q⌋ = 1 / 2 then (if ⌊q⌋ % 2 = 0 then ⌊q⌋ else ⌊q⌋ + 1)
  else round q

/-- OpenCV `saturate_cast<uchar>`: round, then clamp to `[0, 255]`. -/
def satCast8 (q : ℚ) : ℕ := (max 0 (min 255 (rnd q))).toNat

/-- JS typed-array `Uint8` store (`ToUint8`): truncate toward zero,
then reduce modulo 256. -/
def toUint8 (q : ℚ) : ℕ := (jsTrunc q % 256).toNat

/-- An image buffer (a `cv.Mat`): dimensions, channel count and 8-bit
pixel data as a total function (row, col, channel ↦ value). -/
structure Img where
  rows : ℕ
  cols : ℕ
  channels : ℕ
  data : ℕ → ℕ → ℕ → ℕ

/-- The contents of a freshly constructed `new cv.Mat()`. -/
def emptyImg : Img := ⟨0, 0, 0, fun _ _ _ => 0⟩

/-- Pointwise update of the mat store. -/
def upd (f : ℕ → Img) (i : ℕ) (v : Img) : ℕ → Img :=
  fun j => if j = i then v else f j

theorem upd_self (f : ℕ → Img) (i : ℕ) (v : Img) : upd f i v i = v := by
  simp [upd]

/-- `cvtColor COLOR_RGBA2GRAY` per-pixel formula:
`Y = 0.299 R + 0.587 G + 0.114 B`, rounded. -/
def grayOf (r g b : ℕ) : ℕ :=
  (rnd (((299 * r + 587 * g + 114 * b : ℕ) : ℚ) / 1000)).toNat

/-- `cvtColor(mat, gray, COLOR_RGBA2GRAY)`: single-channel output. -/
def rgba2gray (img : Img) : Img :=
  ⟨img.rows, img.cols, 1,
    fun i j _ => grayOf (img.data i j 0) (img.data i j 1) (img.data i j 2)⟩

/-- `cvtColor(..., COLOR_GRAY2RGBA)`: replicate the single channel into
R, G, B and set alpha to 255. -/
def gray2rgba (img : Img) : Img :=
  ⟨img.rows, img.cols, 4, fun i j c => if c < 3 then img.data i j 0 else 255⟩

/-- `cv.threshold(src, dst, t, 255, cv.THRESH_BINARY)`:
`dst = (src > t) ? 255 : 0`. -/
def threshBin (t : ℚ) (img : Img) : Img :=
  ⟨img.rows, img.cols, img.channels,
    fun i j c => if t < (img.data i j c : ℚ) then 255 else 0⟩

/-- `mat.convertTo(mat, -1, alpha, beta)` on an 8-bit mat:
`dst = saturate_cast<uchar>(src * alpha + beta)` on every channel. -/
def convertToImg (alpha beta : ℚ) (img : Img) : Img :=
  ⟨img.rows, img.cols, img.channels,
    fun i j c => satCast8 ((img.data i j c : ℚ) * alpha + beta)⟩

/-- `cv.LUT` applied to every channel (the source loops
`cv.LUT(channels.get(i), lut, channels.get(i))` over all channels). -/
def lutApply (tab : ℕ → ℕ) (img : Img) : Img :=
  ⟨img.rows, img.cols, img.channels, fun i j c => tab (img.data i j c)⟩

/-- `mat.roi(new cv.Rect(x, y, w, h))`: extract the sub-rectangle. -/
def roiImg (x y w h : ℕ) (img : Img) : Img :=
  ⟨h, w, img.channels, fun i j c => img.data (y + i) (x + j) c⟩

/-- The gamma lookup table the executor builds:
`lut.data[i] = Math.pow(i / 255, gamma) * 255` — a `Uint8` store of the
pow result, i.e. `floor` on the nonnegative reals in range.  `powf` is
the (uninterpreted) `Math.pow`. -/
def gammaTable (powf : ℚ → ℚ → ℚ) (gamma : ℚ) (i : ℕ) : ℕ :=
  toUint8 (powf ((i : ℚ) / 255) gamma * 255)

/-- The 1×256 lut mat holding `gammaTable`. -/
def lutMat (powf : ℚ → ℚ → ℚ) (gamma : ℚ) : Img :=
  ⟨1, 256, 1, fun _ j _ => gammaTable powf gamma j⟩

/-- The sparse `TransformParams` interface: every field optional
(`undefined` = `none`).  Only the keys the executor or the synthesizer
read are modelled. -/
structure TransformParams where
  resizeWidth : Option ℚ := none
  resizeHeight : Option ℚ := none
  cropX : Option ℚ := none
  cropY : Option ℚ := none
  cropWidth : Option ℚ := none
  cropHeight : Option ℚ := none
  flipDirection : Option String := none
  rotateAngle : Option ℚ := none
  brightness : Option ℚ := none
  contrast : Option ℚ := none
  gamma : Option ℚ := none
  blur : Option ℚ := none
  bilateralDiameter : Option ℚ := none
  bilateralSigmaColor : Option ℚ := none
  bilateralSigmaSpace : Option ℚ := none
  cannyThreshold1 : Option ℚ := none
  cannyThreshold2 : Option ℚ := none
  sobelDx : Option ℚ := none
  sobelDy : Option ℚ := none
  threshold : Option ℚ := none
  adaptiveBlockSize : Option ℚ := none
  adaptiveC : Option ℚ := none
  morphKernelSize : Option ℚ := none
  translateX : Option ℚ := none
  translateY : Option ℚ := none
  text : Option String := none
  textX : Option ℚ := none
  textY : Option ℚ := none
  textFontSize : Option ℚ := none
  sharpen : Option ℚ := none
deriving DecidableEq

/-- The static `DEFAULT_PARAMS` table of app/page.tsx. -/
def DEFAULT_PARAMS : TransformParams :=
  { blur := some 5
    threshold := some 128
    contrast := some 120
    brightness := some 110
    sharpen := some 1
    cropX := some 10
    cropY := some 10
    cropWidth := some 80
    cropHeight := some 80 }

/-- A `TransformStep`: generated identity, operation identifier,
parameter overrides and display name. -/
structure Step where
  id : String
  type : String
  params : TransformParams
  name : String
deriving DecidableEq

/-- The external OpenCV.js capability provider.  Each field is one
primitive the executor sequences; an `Except.error` result models a
thrown exception.  `powf` is `Math.pow` and `rotEntries` the six
entries of `cv.getRotationMatrix2D(center, angle, 1)`. -/
structure Provider where
  cvt : String → Img → Except String Img
  resize : Img → ℚ → ℚ → Except String Img
  flip : Img → ℤ → Except String Img
  rotateBy : Img → ℕ → Except String Img
  rotEntries : ℚ → ℚ → ℚ → List ℚ
  warpAffine : Img → List ℚ → Except String Img
  gaussian : Img → ℤ → Except String Img
  median : Img → ℤ → Except String Img
  bilateral : Img → ℤ → ℚ → ℚ → Except String Img
  canny : Img → ℚ → ℚ → Except String Img
  sobel : Img → ℚ → ℚ → Except String Img
  laplacian : Img → Except String Img
  cvtScaleAbs : Img → Except String Img
  adaptive : Img → ℚ → ℚ → Except String Img
  otsu : Img → Except String Img
  structElem : ℚ → Except String Img
  erode : Img → Img → Except String Img
  dilate : Img → Img → Except String Img
  morphOpen : Img → Img → Except String Img
  morphClose : Img → Img → Except String Img
  equalize : (ℕ → ℕ → ℕ) → Except String (ℕ → ℕ → ℕ)
  putText : Img → String → ℚ → ℚ → ℚ → Except String Img
  powf : ℚ → ℚ → ℚ

/-- One buffer-lifecycle event of a run: a mat allocation
(`new cv.Mat()`, `Mat.roi`, `matFromArray`, `getStructuringElement`,
`new cv.MatVector()`, `Mat.clone`) or a `delete()` call. -/
inductive Ev where
  | alloc (id : ℕ)
  | free (id : ℕ)
deriving DecidableEq

/-- Mutable state of one execution run: the current mat handle `mat`,
the fresh-id counter, the content store, the `matsToRelease` list and
the chronological event log. -/
structure RunSt where
  mat : ℕ
  next : ℕ
  store : ℕ → Img
  toRelease : List ℕ
  evs : List Ev

/-- Allocate a fresh mat holding `img`; returns its id. -/
def allocMat (img : Img) (st : RunSt) : ℕ × RunSt :=
  (st.next,
    { st with
      next := st.next + 1
      store := upd st.store st.next img
      evs := st.evs ++ [Ev.alloc st.next] })

/-- `m.delete()`: record the release event. -/
def freeMat (i : ℕ) (st : RunSt) : RunSt :=
  { st with evs := st.evs ++ [Ev.free i] }

/-- Overwrite the content of an existing mat (an in-place cv call). -/
def setStore (i : ℕ) (img : Img) (st : RunSt) : RunSt :=
  { st with store := upd st.store i img }

/-- `matsToRelease.push(m)`. -/
def pushRel (i : ℕ) (st : RunSt) : RunSt :=
  { st with toRelease := st.toRelease ++ [i] }

/-- `mat.delete(); mat = o; matsToRelease.push(mat);` — the
current-buffer replacement idiom of the executor. -/
def replaceCur (o : ℕ) (st : RunSt) : RunSt :=
  pushRel o { freeMat st.mat st with mat := o }

/-- Number of `free` events for mat `i` (how often it was deleted). -/
def countFree (evs : List Ev) (i : ℕ) : ℕ :=
  (evs.filter (fun e => e = Ev.free i)).length

/-- Number of `alloc` events for mat `i`. -/
def countAlloc (evs : List Ev) (i : ℕ) : ℕ :=
  (evs.filter (fun e => e = Ev.alloc i)).length

/-! ### The step branches of `applyTransformPipeline`

One definition per `if (step.type === ...)` branch, in source order.
Each returns the state after the branch together with `none`, or the
state at the point of a thrown exception together with `some message`
(buffers already allocated at that point stay in the event log exactly
as they stay allocated in the browser).  Where the source reads back a
mat it has just written, the bound Lean value is used directly (the
store write still happens); this is observationally the same read. -/

/-- `grayscale`: temp `gray` mat, two conversions, temp deleted. -/
def grayscaleB (st : RunSt) : RunSt × Option String :=
  let img := st.store st.mat
  let grayImg := rgba2gray img
  let (g, st1) := allocMat grayImg st
  let st2 := setStore st.mat (gray2rgba grayImg) st1
  (freeMat g st2, none)

/-- `resize`: missing width/height default to the current dimensions. -/
def resizeB (P : Provider) (p : TransformParams) (st : RunSt) :
    RunSt × Option String :=
  let img := st.store st.mat
  let (o, st1) := allocMat emptyImg st
  let w := jsOr p.resizeWidth (img.cols : ℚ)
  let h := jsOr p.resizeHeight (img.rows : ℚ)
  match P.resize img w h with
  | .error e => (st1, some e)
  | .ok res => (replaceCur o (setStore o res st1), none)

/-- `crop`: percentage parameters floored to pixels, `x`,`y` clamped to
`≥ 0` and `w`,`h` to `≥ 1`; `mat.roi` throws when the rectangle leaves
the mat. -/
def cropB (p : TransformParams) (st : RunSt) : RunSt × Option String :=
  let img := st.store st.mat
  let x := (max 0 ⌊jsCoal p.cropX 0 / 100 * (img.cols : ℚ)⌋).toNat
  let y := (max 0 ⌊jsCoal p.cropY 0 / 100 * (img.rows : ℚ)⌋).toNat
  let w := (max 1 ⌊jsCoal p.cropWidth 100 / 100 * (img.cols : ℚ)⌋).toNat
  let h := (max 1 ⌊jsCoal p.cropHeight 100 / 100 * (img.rows : ℚ)⌋).toNat
  if x + w ≤ img.cols ∧ y + h ≤ img.rows then
    let (o, st1) := allocMat (roiImg x y w h img) st
    (replaceCur o st1, none)
  else (st, some "roi outside the mat")

/-- `flip`: `horizontal ↦ 1`, otherwise `0`. -/
def flipB (P : Provider) (p : TransformParams) (st : RunSt) :
    RunSt × Option String :=
  let img := st.store st.mat
  let (o, st1) := allocMat emptyImg st
  let code : ℤ := if p.flipDirection = some "horizontal" then 1 else 0
  match P.flip img code with
  | .error e => (st1, some e)
  | .ok res => (replaceCur o (setStore o res st1), none)

/-- `rotate`: exact `cv.rotate` for 90/180/270, otherwise an affine
rotation about the center (rotation-matrix mat allocated and deleted
right after the warp). -/
def rotateB (P : Provider) (p : TransformParams) (st : RunSt) :
    RunSt × Option String :=
  let img := st.store st.mat
  let (o, st1) := allocMat emptyImg st
  let angle := jsOr p.rotateAngle 0
  if angle = 90 then
    match P.rotateBy img 0 with
    | .error e => (st1, some e)
    | .ok res => (replaceCur o (setStore o res st1), none)
  else if angle = 180 then
    match P.rotateBy img 1 with
    | .error e => (st1, some e)
    | .ok res => (replaceCur o (setStore o res st1), none)
  else if angle = 270 then
    match P.rotateBy img 2 with
    | .error e => (st1, some e)
    | .ok res => (replaceCur o (setStore o res st1), none)
  else
    let entries := P.rotEntries ((img.cols : ℚ) / 2) ((img.rows : ℚ) / 2) angle
    let (m, st2) := allocMat ⟨2, 3, 1, fun _ _ _ => 0⟩ st1
    match P.warpAffine img entries with
    | .error e => (st2, some e)
    | .ok res => (replaceCur o (freeMat m (setStore o res st2)), none)

/-- `hsv`/`lab`/`ycrcb`: temp mat, convert forward then back in place,
temp deleted at the end (leaking if the back conversion throws). -/
def inPlaceCvt (P : Provider) (fwd bwd : String) (st : RunSt) :
    RunSt × Option String :=
  let img := st.store st.mat
  let (o, st1) := allocMat emptyImg st
  match P.cvt fwd img with
  | .error e => (st1, some e)
  | .ok mid =>
    let st2 := setStore o mid st1
    match P.cvt bwd mid with
    | .error e => (st2, some e)
    | .ok back => (freeMat o (setStore st.mat back st2), none)

/-- `contrast` / `brightness` (one shared branch):
`alpha = (contrast ?? 100) / 100`, `beta = ((brightness ?? 100) - 100) * 2.55`,
then `mat.convertTo(mat, -1, alpha, beta)`. -/
def contrastBrightnessB (p : TransformParams) (st : RunSt) :
    RunSt × Option String :=
  let alpha := jsCoal p.contrast 100 / 100
  let beta := (jsCoal p.brightness 100 - 100) * (255 / 100)
  (setStore st.mat (convertToImg alpha beta (st.store st.mat)) st, none)

/-- `gamma`: build the 1×256 lut from `Math.pow`, split, apply `cv.LUT`
to every channel, merge; lut and channel vector deleted. -/
def gammaB (P : Provider) (p : TransformParams) (st : RunSt) :
    RunSt × Option String :=
  let img := st.store st.mat
  let gamma := jsCoal p.gamma 1
  let (l, st1) := allocMat (lutMat P.powf gamma) st
  let (v, st2) := allocMat img st1
  let st3 := setStore st.mat (lutApply (gammaTable P.powf gamma) img) st2
  (freeMat v (freeMat l st3), none)

/-- `hist_eq`: convert to YCrCb, equalize channel 0, convert back. -/
def histEqB (P : Provider) (st : RunSt) : RunSt × Option String :=
  let img := st.store st.mat
  let (y, st1) := allocMat emptyImg st
  match P.cvt "RGBA2YCrCb" img with
  | .error e => (st1, some e)
  | .ok yc =>
    let st2 := setStore y yc st1
    let (v, st3) := allocMat yc st2
    match P.equalize (fun i j => yc.data i j 0) with
    | .error e => (st3, some e)
    | .ok eq0 =>
      let merged : Img :=
        ⟨yc.rows, yc.cols, yc.channels,
          fun i j c => if c = 0 then eq0 i j else yc.data i j c⟩
      let st4 := setStore y merged st3
      match P.cvt "YCrCb2RGBA" merged with
      | .error e => (st4, some e)
      | .ok back => (freeMat v (freeMat y (setStore st.mat back st4)), none)

/-- The Gaussian-blur kernel size the executor applies:
`ksize = params.blur || 5`, passed as `new cv.Size(ksize|1, ksize|1)`. -/
def gaussKsize (p : TransformParams) : ℤ := jsOrOne (jsOr p.blur 5)

/-- `gaussian_blur`. -/
def gaussianB (P : Provider) (p : TransformParams) (st : RunSt) :
    RunSt × Option String :=
  let img := st.store st.mat
  let (o, st1) := allocMat emptyImg st
  match P.gaussian img (gaussKsize p) with
  | .error e => (st1, some e)
  | .ok res => (replaceCur o (setStore o res st1), none)

/-- `median_blur`: `cv.medianBlur(mat, out, ksize|1)`. -/
def medianB (P : Provider) (p : TransformParams) (st : RunSt) :
    RunSt × Option String :=
  let img := st.store st.mat
  let (o, st1) := allocMat emptyImg st
  match P.median img (jsOrOne (jsOr p.blur 5)) with
  | .error e => (st1, some e)
  | .ok res => (replaceCur o (setStore o res st1), none)

/-- `bilateral`: optional RGBA→RGB conversion, clamped parameters, then
`bilateralFilter` inside a try/catch/finally that rethrows a fixed
message and always deletes `out` and `converted`. -/
def bilateralB (P : Provider) (p : TransformParams) (st : RunSt) :
    RunSt × Option String :=
  let img := st.store st.mat
  let (o, st1) := allocMat emptyImg st
  let d := max 1 (round (jsOr p.bilateralDiameter 9))
  let sc := max 1 (jsOr p.bilateralSigmaColor 75)
  let ss := max 1 (jsOr p.bilateralSigmaSpace 75)
  let failMsg := "Bilateral filter failed. Please check parameter values."
  if img.channels = 4 then
    let (c, st2) := allocMat emptyImg st1
    match P.cvt "RGBA2RGB" img with
    | .error e => (st2, some e)
    | .ok inp =>
      let st3 := setStore c inp st2
      match P.bilateral inp d sc ss with
      | .error _ => (freeMat c (freeMat o st3), some failMsg)
      | .ok res =>
        let st4 := setStore o res st3
        match P.cvt "RGB2RGBA" res with
        | .error _ => (freeMat c (freeMat o st4), some failMsg)
        | .ok back => (freeMat c (freeMat o (setStore st.mat back st4)), none)
  else
    match P.bilateral img d sc ss with
    | .error _ => (freeMat o st1, some failMsg)
    | .ok res => (freeMat o (setStore st.mat res (setStore o res st1)), none)

/-- `canny`: single-channel edge map expanded back to RGBA. -/
def cannyB (P : Provider) (p : TransformParams) (st : RunSt) :
    RunSt × Option String :=
  let img := st.store st.mat
  let (o, st1) := allocMat emptyImg st
  match P.canny img (jsOr p.cannyThreshold1 50) (jsOr p.cannyThreshold2 150) with
  | .error e => (st1, some e)
  | .ok res =>
    let st2 := setStore o res st1
    (freeMat o (setStore st.mat (gray2rgba res) st2), none)

/-- `sobel`: gray, gradient, `convertScaleAbs`, expand to RGBA. -/
def sobelB (P : Provider) (p : TransformParams) (st : RunSt) :
    RunSt × Option String :=
  let img := st.store st.mat
  let grayImg := rgba2gray img
  let (g, st1) := allocMat grayImg st
  let (gr, st2) := allocMat emptyImg st1
  match P.sobel grayImg (jsOr p.sobelDx 1) (jsOr p.sobelDy 0) with
  | .error e => (st2, some e)
  | .ok grad =>
    let st3 := setStore gr grad st2
    let (a, st4) := allocMat emptyImg st3
    match P.cvtScaleAbs grad with
    | .error e => (st4, some e)
    | .ok ab =>
      let st5 := setStore a ab st4
      let st6 := setStore st.mat (gray2rgba ab) st5
      (freeMat a (freeMat gr (freeMat g st6)), none)

/-- `laplacian`: gray, Laplacian, `convertScaleAbs`, expand to RGBA. -/
def laplacianB (P : Provider) (st : RunSt) : RunSt × Option String :=
  let img := st.store st.mat
  let grayImg := rgba2gray img
  let (g, st1) := allocMat grayImg st
  let (l, st2) := allocMat emptyImg st1
  match P.laplacian grayImg with
  | .error e => (st2, some e)
  | .ok lap =>
    let st3 := setStore l lap st2
    let (a, st4) := allocMat emptyImg st3
    match P.cvtScaleAbs lap with
    | .error e => (st4, some e)
    | .ok ab =>
      let st5 := setStore a ab st4
      let st6 := setStore st.mat (gray2rgba ab) st5
      (freeMat a (freeMat l (freeMat g st6)), none)

/-- `simple_thresh`: gray, `threshold(gray, out, params.threshold || 128,
255, THRESH_BINARY)`, expand back to RGBA; temps deleted. -/
def simpleThreshB (p : TransformParams) (st : RunSt) : RunSt × Option String :=
  let img := st.store st.mat
  let grayImg := rgba2gray img
  let (g, st1) := allocMat grayImg st
  let outImg := threshBin (jsOr p.threshold 128) grayImg
  let (o, st2) := allocMat outImg st1
  let st3 := setStore st.mat (gray2rgba outImg) st2
  (freeMat o (freeMat g st3), none)

/-- `adaptive_thresh`. -/
def adaptiveB (P : Provider) (p : TransformParams) (st : RunSt) :
    RunSt × Option String :=
  let img := st.store st.mat
  let grayImg := rgba2gray img
  let (g, st1) := allocMat grayImg st
  let (o, st2) := allocMat emptyImg st1
  match P.adaptive grayImg (jsOr p.adaptiveBlockSize 11) (jsOr p.adaptiveC 2) with
  | .error e => (st2, some e)
  | .ok res =>
    let st3 := setStore o res st2
    let st4 := setStore st.mat (gray2rgba res) st3
    (freeMat o (freeMat g st4), none)

/-- `otsu`. -/
def otsuB (P : Provider) (st : RunSt) : RunSt × Option String :=
  let img := st.store st.mat
  let grayImg := rgba2gray img
  let (g, st1) := allocMat grayImg st
  let (o, st2) := allocMat emptyImg st1
  match P.otsu grayImg with
  | .error e => (st2, some e)
  | .ok res =>
    let st3 := setStore o res st2
    let st4 := setStore st.mat (gray2rgba res) st3
    (freeMat o (freeMat g st4), none)

/-- `erode`/`dilate`/`open`/`close`: square structuring element of side
`morphKernelSize || 3`; the kernel mat is deleted only after the
current buffer is replaced. -/
def morphB (P : Provider) (ty : String) (p : TransformParams) (st : RunSt) :
    RunSt × Option String :=
  let img := st.store st.mat
  let (o, st1) := allocMat emptyImg st
  let ksize := jsOr p.morphKernelSize 3
  match P.structElem ksize with
  | .error e => (st1, some e)
  | .ok ker =>
    let (k, st2) := allocMat ker st1
    let op :=
      if ty = "erode" then P.erode
      else if ty = "dilate" then P.dilate
      else if ty = "open" then P.morphOpen
      else P.morphClose
    match op img ker with
    | .error e => (st2, some e)
    | .ok res => (freeMat k (replaceCur o (setStore o res st2)), none)

/-- `translate`: 2×3 translation matrix built with `matFromArray`, then
`warpAffine`; the matrix mat is deleted only after the replacement. -/
def translateB (P : Provider) (p : TransformParams) (st : RunSt) :
    RunSt × Option String :=
  let img := st.store st.mat
  let (o, st1) := allocMat emptyImg st
  let entries : List ℚ := [1, 0, jsOr p.translateX 0, 0, 1, jsOr p.translateY 0]
  let (m, st2) := allocMat ⟨2, 3, 1, fun _ _ _ => 0⟩ st1
  match P.warpAffine img entries with
  | .error e => (st2, some e)
  | .ok res => (freeMat m (replaceCur o (setStore o res st2)), none)

/-- `draw_text`: `cv.putText` in place on the current mat. -/
def drawTextB (P : Provider) (p : TransformParams) (st : RunSt) :
    RunSt × Option String :=
  match P.putText (st.store st.mat) (jsOrStr p.text "")
      (jsOr p.textX 10) (jsOr p.textY 30) (jsOr p.textFontSize 1 / 10) with
  | .error e => (st, some e)
  | .ok res => (setStore st.mat res st, none)

/-- One iteration of the step loop: dispatch on `step.type` exactly as
the `if/else if` chain of the source.  Branches that are recognized but
unimplemented (`hed`, `cmyk`, `nl_means`, `perspective`, `affine`,
`add_weighted`, `find_contours`, `feature_detect`) have empty bodies,
and an unknown identifier falls off the chain: state unchanged, no
failure. -/
def runStep (P : Provider) (step : Step) (st : RunSt) : RunSt × Option String :=
  let p := step.params
  if step.type = "grayscale" then grayscaleB st
  else if step.type = "resize" then resizeB P p st
  else if step.type = "crop" then cropB p st
  else if step.type = "flip" then flipB P p st
  else if step.type = "rotate" then rotateB P p st
  else if step.type = "hsv" then inPlaceCvt P "RGBA2HSV" "HSV2RGBA" st
  else if step.type = "lab" then inPlaceCvt P "RGBA2Lab" "Lab2RGBA" st
  else if step.type = "ycrcb" then inPlaceCvt P "RGBA2YCrCb" "YCrCb2RGBA" st
  else if step.type = "hed" ∨ step.type = "cmyk" then (st, none)
  else if step.type = "contrast" ∨ step.type = "brightness" then
    contrastBrightnessB p st
  else if step.type = "gamma" then gammaB P p st
  else if step.type = "hist_eq" then histEqB P st
  else if step.type = "gaussian_blur" then gaussianB P p st
  else if step.type = "median_blur" then medianB P p st
  else if step.type = "bilateral" then bilateralB P p st
  else if step.type = "nl_means" then (st, none)
  else if step.type = "canny" then cannyB P p st
  else if step.type = "sobel" then sobelB P p st
  else if step.type = "laplacian" then laplacianB P st
  else if step.type = "simple_thresh" then simpleThreshB p st
  else if step.type = "adaptive_thresh" then adaptiveB P p st
  else if step.type = "otsu" then otsuB P st
  else if step.type = "erode" ∨ step.type = "dilate" ∨ step.type = "open" ∨
      step.type = "close" then morphB P step.type p st
  else if step.type = "translate" then translateB P p st
  else if step.type = "perspective" then (st, none)
  else if step.type = "affine" then (st, none)
  else if step.type = "add_weighted" then (st, none)
  else if step.type = "find_contours" then (st, none)
  else if step.type = "draw_text" then drawTextB P p st
  else if step.type = "feature_detect" then (st, none)
  else (st, none)

/-- The step loop with its inner try/catch: on a throw the catch logs
`step.type`, clears the processed image, alerts with `step.name` and
the message, and `break`s.  Returns the state after the loop and, when
a step failed, the failing step's display name, operation identifier
and error message. -/
def runSteps (P : Provider) : List Step → RunSt →
    RunSt × Option (String × String × String)
  | [], st => (st, none)
  | s :: rest, st =>
    match runStep P s st with
    | (st1, none) => runSteps P rest st1
    | (st1, some msg) => (st1, some (s.name, s.type, msg))

/-- What a run of `applyTransformPipeline` leaves behind:
the published processed image (`setImages` with
`processed: matToDataUrl(mat)` — or `prev.original` for an empty
pipeline), the `alert(...)` calls (display name, message), the
`console.error` log (operation identifiers), and the buffer event log. -/
structure RunOut where
  processed : Option Img
  alerts : List (String × String)
  consoleLog : List String
  evs : List Ev

/-- `applyTransformPipeline`: empty pipeline short-circuits to the
original before any buffer work; otherwise clone the source into the
working mat (`matsToRelease = [mat]`), run the loop, encode and publish
the current mat — the source does this after the loop even when the
loop was left by the failure `break` — and finally delete everything
in `matsToRelease`. -/
def applyTransformPipeline (P : Provider) (src : Img) (pipeline : List Step) :
    RunOut :=
  if pipeline.length = 0 then ⟨some src, [], [], []⟩
  else
    let st0 : RunSt := ⟨0, 0, fun _ => emptyImg, [], []⟩
    let (c, st1) := allocMat src st0
    let st2 := pushRel c { st1 with mat := c }
    let (st3, err) := runSteps P pipeline st2
    let published := some (st3.store st3.mat)
    let stF := st3.toRelease.foldl (fun s i => freeMat i s) st3
    match err with
    | none => ⟨published, [], [], stF.evs⟩
    | some (nm, ty, msg) => ⟨published, [(nm, msg)], [ty], stF.evs⟩

/-! ### The code synthesizer `generatePythonCode` -/

/-- Decimal rendering of a JS number for the template literals.  The
parameter values the app splices are integers (sliders step by 1 and
the defaults are integral), rendered like JS renders an integral
double; non-integral rationals fall back to `num/den`. -/
def qToStr (q : ℚ) : String :=
  if q.den = 1 then toString q.num else toString q

/-- The kernel-size literal the synthesizer emits for a `blur` step:
`(step.params.blur || 1) * 2 + 1`. -/
def genBlurKsizeQ (p : TransformParams) : ℚ := (jsOr p.blur 1) * 2 + 1

/-- The fixed preamble of the generated script. -/
def pyPreamble : String :=
  "import cv2\nimport numpy as np\nfrom PIL import Image, ImageEnhance\n\n" ++
  "# Load image\nimage = cv2.imread(\x27input_image.jpg\x27)\n" ++
  "processed_image = image.copy()\n\n# Apply transform pipeline\n"

/-- The fixed footer of the generated script. -/
def pyFooter : String :=
  "\n# Save final processed image\ncv2.imwrite(\x27output_image.jpg\x27, processed_image)"

/-- The per-step annotation line `\n# Step N: name\n`, emitted for
every step before the `switch`. -/
def stepHeader (index : ℕ) (step : Step) : String :=
  "\n# Step " ++ toString (index + 1) ++ ": " ++ step.name ++ "\n"

/-- The `switch (step.type)` body: only the six legacy operation
identifiers have cases; every other identifier contributes nothing. -/
def stepBody (step : Step) : String :=
  let p := step.params
  if step.type = "blur" then
    "processed_image = cv2.GaussianBlur(processed_image, (" ++
      qToStr (genBlurKsizeQ p) ++ ", " ++ qToStr (genBlurKsizeQ p) ++ "), 0)\n"
  else if step.type = "threshold" then
    "gray = cv2.cvtColor(processed_image, cv2.COLOR_BGR2GRAY)\n" ++
    "_, processed_image = cv2.threshold(gray, " ++ qToStr (jsOr p.threshold 128) ++
    ", 255, cv2.THRESH_BINARY)\n" ++
    "processed_image = cv2.cvtColor(processed_image, cv2.COLOR_GRAY2BGR)\n"
  else if step.type = "contrast" then
    "pil_image = Image.fromarray(cv2.cvtColor(processed_image, cv2.COLOR_BGR2RGB))\n" ++
    "enhancer = ImageEnhance.Contrast(pil_image)\n" ++
    "processed_image = cv2.cvtColor(np.array(enhancer.enhance(" ++
    qToStr (jsOr p.contrast 100 / 100) ++ ")), cv2.COLOR_RGB2BGR)\n"
  else if step.type = "brightness" then
    "processed_image = cv2.convertScaleAbs(processed_image, alpha=" ++
    qToStr (jsOr p.brightness 100 / 100) ++ ", beta=0)\n"
  else if step.type = "sharpen" then
    "kernel = np.array([[-1,-1,-1], [-1,9,-1], [-1,-1,-1]])\n" ++
    "processed_image = cv2.filter2D(processed_image, -1, kernel)\n"
  else if step.type = "crop" then
    "height, width = processed_image.shape[:2]\n" ++
    "x = int(width * " ++ qToStr (jsOr p.cropX 0 / 100) ++ ")\n" ++
    "y = int(height * " ++ qToStr (jsOr p.cropY 0 / 100) ++ ")\n" ++
    "w = int(width * " ++ qToStr (jsOr p.cropWidth 100 / 100) ++ ")\n" ++
    "h = int(height * " ++ qToStr (jsOr p.cropHeight 100 / 100) ++ ")\n" ++
    "processed_image = processed_image[y:y+h, x:x+w]\n"
  else ""

/-- The `forEach` over the pipeline: header plus switch body per step. -/
def genSteps : ℕ → List Step → String
  | _, [] => ""
  | i, s :: rest => stepHeader i s ++ stepBody s ++ genSteps (i + 1) rest

/-- `generatePythonCode`: empty string for an empty pipeline, otherwise
preamble, one block per step, footer. -/
def generatePythonCode (pipeline : List Step) : String :=
  if pipeline.length = 0 then ""
  else pyPreamble ++ genSteps 0 pipeline ++ pyFooter

/-! ### The pipeline editor -/

/-- `addTransformToPipeline` (both the callback and the inline
Add-to-Pipeline handler): guard on an empty selection, then append a
step whose `params` is a copy of the full static `DEFAULT_PARAMS` —
the tuned slider state `transformParams` is not consulted. -/
def addTransformToPipeline (prev : List Step) (selectedOperation : String)
    (currentOperationLabel : Option String) (transformParams : TransformParams)
    (newId : String) : List Step :=
  if selectedOperation = "" then prev
  else
    prev ++ [{ id := newId
               type := selectedOperation
               params := DEFAULT_PARAMS
               name := jsOrStr currentOperationLabel selectedOperation }]

/-! ### Concrete provider instances and inputs for evaluation -/

/-- A provider whose primitives all succeed (resize honours the
requested size; the rest pass the buffer through — their pixel math is
external to the core and irrelevant to the lifecycle claims). -/
def trivP : Provider :=
  { cvt := fun _ img => .ok img
    resize := fun img w h =>
      .ok ⟨(max 0 (jsTrunc h)).toNat, (max 0 (jsTrunc w)).toNat, img.channels, img.data⟩
    flip := fun img _ => .ok img
    rotateBy := fun img _ => .ok img
    rotEntries := fun _ _ _ => [1, 0, 0, 0, 1, 0]
    warpAffine := fun img _ => .ok img
    gaussian := fun img _ => .ok img
    median := fun img _ => .ok img
    bilateral := fun img _ _ _ => .ok img
    canny := fun img _ _ => .ok (rgba2gray img)
    sobel := fun img _ _ => .ok img
    laplacian := fun img => .ok img
    cvtScaleAbs := fun img => .ok img
    adaptive := fun img _ _ => .ok img
    otsu := fun img => .ok img
    structElem := fun _ => .ok emptyImg
    erode := fun img _ => .ok img
    dilate := fun img _ => .ok img
    morphOpen := fun img _ => .ok img
    morphClose := fun img _ => .ok img
    equalize := fun f => .ok f
    putText := fun img _ _ _ _ => .ok img
    powf := fun x _ => x }

/-- Like `trivP`, but `cv.GaussianBlur` throws. -/
def failGaussP : Provider := { trivP with gaussian := fun _ _ => .error "boom" }

/-- A 2×2 RGBA test image: every pixel `(100, 100, 100, 255)`. -/
def img22 : Img := ⟨2, 2, 4, fun _ _ c => if c = 3 then 255 else 100⟩

/-- A resize step shrinking to 1×1. -/
def resizeStep : Step :=
  ⟨"s1", "resize", { resizeWidth := some 1, resizeHeight := some 1 }, "Resize"⟩

/-- A Gaussian-blur step with no overrides. -/
def gaussStep : Step := ⟨"s2", "gaussian_blur", {}, "Gaussian Blur"⟩

/-- A perspective-transform step (recognized, unimplemented). -/
def perspStep : Step := ⟨"s3", "perspective", {}, "Perspective Transform"⟩

/-- A mid-run state: the clone (id 0, content `img22`) is the current
mat, one id handed out, `matsToRelease = [0]`. -/
def initSt : RunSt := ⟨0, 1, upd (fun _ => emptyImg) 0 img22, [0], [Ev.alloc 0]⟩

/-! ### Claims -/

/-- C9: executing an empty pipeline publishes the source buffer's
content unchanged, touches no working buffer (empty event log) and
raises nothing — `applyTransformPipeline` short-circuits before the
clone. -/
theorem empty_pipeline_identity (P : Provider) (src : Img) :
    applyTransformPipeline P src [] = ⟨some src, [], [], []⟩ := rfl

/-- C1 (code bug): on the pipeline `[resize to 1×1, gaussian_blur]`
with a provider whose `GaussianBlur` throws, the executor does abort at
the failing step and surface its display name (`alert`) and operation
identifier (`console.error`) — but because the `break` falls through to
the unconditional encode-and-publish after the loop, it still publishes
the partially processed buffer (the 1×1 resize result, not the 2×2
source), and the mid-construction mat (id 2) is allocated but never
released.  The claim's "publishes no result" is violated by the code. -/
theorem step_failure_publishes_partial :
    (applyTransformPipeline failGaussP img22 [resizeStep, gaussStep]).alerts
        = [("Gaussian Blur", "boom")] ∧
    (applyTransformPipeline failGaussP img22 [resizeStep, gaussStep]).consoleLog
        = ["gaussian_blur"] ∧
    (applyTransformPipeline failGaussP img22 [resizeStep, gaussStep]).processed.isSome
        = true ∧
    Option.map Img.cols
        (applyTransformPipeline failGaussP img22 [resizeStep, gaussStep]).processed
        = some 1 ∧
    img22.cols = 2 ∧
    countAlloc (applyTransformPipeline failGaussP img22 [resizeStep, gaussStep]).evs 2
        = 1 ∧
    countFree (applyTransformPipeline failGaussP img22 [resizeStep, gaussStep]).evs 2
        = 0 := by
  decide

/-- C2 (code bug): already on the single-step pipeline `[resize]` with
every primitive succeeding, the initial clone (mat id 0) is deleted
twice — once inline at the replacement (`mat.delete()`) and again by
the final `matsToRelease` sweep, which still holds the stale handle —
so "every buffer is released exactly once" fails. -/
theorem resize_run_double_release :
    countFree (applyTransformPipeline trivP img22 [resizeStep]).evs 0 = 2 ∧
    countAlloc (applyTransformPipeline trivP img22 [resizeStep]).evs 0 = 1 := by
  decide

theorem jsOr_none (d : ℚ) : jsOr none d = d := rfl

theorem jsOr_some (v d : ℚ) (h : v ≠ 0) : jsOr (some v) d = v := by
  simp [jsOr, h]

/-- C5: the `contrast`/`brightness` branch applies the single combined
linear map `out = saturate_cast(in * alpha + beta)` with
`alpha = (params.contrast ?? 100) / 100` and
`beta = ((params.brightness ?? 100) - 100) * 2.55`, reading both
parameters, and a `brightness` step runs the very same transform as a
`contrast` step with the same parameter set. -/
theorem contrast_brightness_combined (P : Provider) (st : RunSt)
    (p : TransformParams) (sid nm : String) :
    runStep P ⟨sid, "contrast", p, nm⟩ st
      = (setStore st.mat
          (convertToImg (jsCoal p.contrast 100 / 100)
            ((jsCoal p.brightness 100 - 100) * (255 / 100))
            (st.store st.mat)) st, none) ∧
    runStep P ⟨sid, "brightness", p, nm⟩ st
      = runStep P ⟨sid, "contrast", p, nm⟩ st :=
  ⟨rfl, rfl⟩

set_option maxRecDepth 8000 in
/-- C4, counterexample: a perspective step does contribute text to the
synthesizer output — its `# Step N: name` annotation line is emitted
unconditionally before the `switch`, so the generated script for the
one-step pipeline contains it. -/
theorem unsupported_step_emits_header :
    stepHeader 0 perspStep ++ stepBody perspStep
      = "\n# Step 1: Perspective Transform\n" ∧
    generatePythonCode [perspStep]
      = pyPreamble ++ "\n# Step 1: Perspective Transform\n" ++ pyFooter ∧
    "\n# Step 1: Perspective Transform\n" ≠ "" := by
  decide

/-- C4, amended: for the recognized-but-unimplemented operations the
executor applies an identity pass (state unchanged, no failure, no
allocation), and the synthesizer's `switch` contributes no operation
code for them — the step's only contribution is its header comment. -/
theorem unsupported_identity_and_omission (P : Provider) (st : RunSt)
    (step : Step)
    (h : step.type = "perspective" ∨ step.type = "affine" ∨
         step.type = "add_weighted" ∨ step.type = "find_contours" ∨
         step.type = "feature_detect") :
    runStep P step st = (st, none) ∧ stepBody step = "" := by
  obtain ⟨sid, ty, p, nm⟩ := step
  rcases h with h | h | h | h | h <;> subst h <;> exact ⟨rfl, rfl⟩

/-- Witness for `unsupported_identity_and_omission` at the concrete
perspective step. -/
theorem unsupported_identity_witness :
    (perspStep.type = "perspective" ∨ perspStep.type = "affine" ∨
     perspStep.type = "add_weighted" ∨ perspStep.type = "find_contours" ∨
     perspStep.type = "feature_detect") ∧
    (runStep trivP perspStep initSt = (initSt, none) ∧ stepBody perspStep = "") :=
  ⟨Or.inl rfl, unsupported_identity_and_omission trivP initSt perspStep (Or.inl rfl)⟩

/-- A blur parameter set with kernel-size 5. -/
def blur5p : TransformParams := { blur := some 5 }

/-- C3, counterexample: for a blur step with kernel parameter 5, the
synthesizer emits the literal `(5 || 1) * 2 + 1 = 11` while the
executor's Gaussian-blur kernel is `(5 || 5) | 1 = 5` — the emitted
kernel size is not the one the executor applies. -/
theorem blur_literal_mismatch :
    genBlurKsizeQ blur5p = 11 ∧ gaussKsize blur5p = 5 ∧
    genBlurKsizeQ blur5p ≠ ((gaussKsize blur5p : ℤ) : ℚ) := by
  have h1 : genBlurKsizeQ blur5p = 11 := by
    norm_num [genBlurKsizeQ, jsOr, blur5p]
  have h2 : gaussKsize blur5p = 5 := by
    norm_num [gaussKsize, jsOr, jsOrOne, jsTrunc, blur5p, Int.floor_ofNat]
  refine ⟨h1, h2, ?_⟩
  rw [h1, h2]; norm_num

/-- C3, amended: the two kernel-size derivations disagree on every
nonnegative blur parameter (and on an absent one): the synthesizer's
`(blur || 1) * 2 + 1` never equals the executor's `(blur || 5) | 1`. -/
theorem blur_formula_divergence (p : TransformParams)
    (h : 0 ≤ p.blur.getD 0) :
    genBlurKsizeQ p ≠ ((gaussKsize p : ℤ) : ℚ) := by
  simp only [genBlurKsizeQ, gaussKsize]
  cases hb : p.blur with
  | none => norm_num [jsOr_none, jsOrOne, jsTrunc, Int.floor_ofNat]
  | some v =>
    rw [hb] at h; simp only [Option.getD] at h
    by_cases hv : v = 0
    · subst hv; norm_num [jsOr, jsOrOne, jsTrunc, Int.floor_ofNat]
    · rw [jsOr_some v 1 hv, jsOr_some v 5 hv]
      have hv0 : 0 < v := lt_of_le_of_ne h (Ne.symm hv)
      have hfl : ((⌊v⌋ : ℤ) : ℚ) ≤ v := Int.floor_le v
      simp only [jsOrOne, jsTrunc, if_pos h]
      split_ifs with hpar <;> intro heq <;> push_cast at heq <;> linarith

/-- Witness for `blur_formula_divergence` at blur = 5. -/
theorem blur_formula_divergence_witness :
    0 ≤ blur5p.blur.getD 0 ∧
    genBlurKsizeQ blur5p ≠ ((gaussKsize blur5p : ℤ) : ℚ) :=
  ⟨by decide, blur_formula_divergence blur5p (by decide)⟩

/-- C10: appending a step records exactly the full static
`DEFAULT_PARAMS` table, for every operation and independently of the
tuned slider state, and that table holds precisely the documented nine
defaults. -/
theorem add_step_records_defaults (prev : List Step) (op : String)
    (label : Option String) (slider : TransformParams) (nid : String)
    (h : op ≠ "") :
    addTransformToPipeline prev op label slider nid
      = prev ++ [⟨nid, op, DEFAULT_PARAMS, jsOrStr label op⟩] ∧
    (∀ slider', addTransformToPipeline prev op label slider' nid
      = addTransformToPipeline prev op label slider nid) ∧
    DEFAULT_PARAMS.blur = some 5 ∧ DEFAULT_PARAMS.threshold = some 128 ∧
    DEFAULT_PARAMS.contrast = some 120 ∧ DEFAULT_PARAMS.brightness = some 110 ∧
    DEFAULT_PARAMS.sharpen = some 1 ∧ DEFAULT_PARAMS.cropX = some 10 ∧
    DEFAULT_PARAMS.cropY = some 10 ∧ DEFAULT_PARAMS.cropWidth = some 80 ∧
    DEFAULT_PARAMS.cropHeight = some 80 := by
  refine ⟨?_, fun _ => rfl, rfl, rfl, rfl, rfl, rfl, rfl, rfl, rfl, rfl⟩
  simp [addTransformToPipeline, h]

/-- Witness for `add_step_records_defaults` at a concrete append. -/
theorem add_step_records_defaults_witness :
    "gaussian_blur" ≠ "" ∧
    addTransformToPipeline [] "gaussian_blur" (some "Gaussian Blur") {} "id1"
      = [⟨"id1", "gaussian_blur", DEFAULT_PARAMS, "Gaussian Blur"⟩] := by
  refine ⟨by decide, ?_⟩
  have h := (add_step_records_defaults [] "gaussian_blur" (some "Gaussian Blur")
    {} "id1" (by decide)).1
  simpa [jsOrStr] using h

/-- `cvRound` never rounds above an integer bound. -/
theorem rnd_le (q : ℚ) (n : ℤ) (h : q ≤ (n : ℚ)) : rnd q ≤ n := by
  unfold rnd
  have hfn : ⌊q⌋ ≤ n := by
    calc ⌊q⌋ ≤ ⌊(n : ℚ)⌋ := Int.floor_le_floor h
    _ = n := Int.floor_intCast n
  split_ifs with h1 h2
  · exact hfn
  · have hlt : ((⌊q⌋ : ℤ) : ℚ) < (n : ℚ) := by
      have hq : ((⌊q⌋ : ℤ) : ℚ) = q - 1 / 2 := by linarith
      rw [hq]; linarith
    have : ⌊q⌋ < n := by exact_mod_cast hlt
    omega
  · rw [round_eq]
    calc ⌊q + 1 / 2⌋ ≤ ⌊(n : ℚ) + 1 / 2⌋ := Int.floor_le_floor (by linarith)
    _ = n + ⌊(1 : ℚ) / 2⌋ := Int.floor_int_add n _
    _ = n := by norm_num

/-- The grayscale formula stays inside the 8-bit range
(the weights sum to exactly 1). -/
theorem grayOf_le_255 (r g b : ℕ) (hr : r ≤ 255) (hg : g ≤ 255)
    (hb : b ≤ 255) : grayOf r g b ≤ 255 := by
  unfold grayOf
  have hq : ((299 * r + 587 * g + 114 * b : ℕ) : ℚ) / 1000 ≤ ((255 : ℤ) : ℚ) := by
    rw [div_le_iff₀ (by norm_num)]
    push_cast
    have hr' : (r : ℚ) ≤ 255 := by exact_mod_cast hr
    have hg' : (g : ℚ) ≤ 255 := by exact_mod_cast hg
    have hb' : (b : ℚ) ≤ 255 := by exact_mod_cast hb
    linarith
  have := rnd_le _ 255 hq
  omega

/-- A threshold parameter set to 255. -/
def thr255Params : TransformParams := { threshold := some 255 }

/-- A threshold parameter set to 0. -/
def thr0Params : TransformParams := { threshold := some 0 }

/-- The grayscale value of the uniform gray pixel `(100, 100, 100)`. -/
theorem grayOf_100 : grayOf 100 100 100 = 100 := by
  unfold grayOf rnd
  norm_num [Int.floor_ofNat, round_ofNat]
  decide

/-- C6, counterexample: running a simple-threshold step with threshold
parameter 0 on the 2×2 all-`(100,100,100,255)` buffer leaves pixel
(0,0) black (value 0), not white — `threshold || 128` treats 0 as
falsy, so the effective threshold is 128 and 100 is below it. -/
theorem thresh_zero_not_white :
    (((runStep trivP ⟨"s4", "simple_thresh", thr0Params, "Simple Threshold"⟩
        initSt).1).store 0).data 0 0 0 = 0 ∧ (0 : ℕ) ≠ 255 := by
  refine ⟨?_, by decide⟩
  show ((simpleThreshB thr0Params initSt).1.store 0).data 0 0 0 = 0
  simp only [simpleThreshB, allocMat, setStore, freeMat, initSt, upd_self,
    gray2rgba, rgba2gray, threshBin, img22]
  norm_num [grayOf_100, thr0Params, jsOr]

/-- C6, amended: a threshold parameter of 0 falls back to the default
128 (`0` is falsy in `params.threshold || 128`), so threshold 0 does
not whiten; threshold 255 does produce an all-black result: on any
8-bit-valid buffer every RGB channel of the output is 0. -/
theorem thresh_extremes :
    jsOr (some 0) 128 = 128 ∧
    ∀ (P : Provider) (st : RunSt) (p : TransformParams) (sid nm : String)
      (i j c : ℕ),
      p.threshold = some 255 →
      (∀ a b d : ℕ, (st.store st.mat).data a b d ≤ 255) →
      c < 3 →
      (((runStep P ⟨sid, "simple_thresh", p, nm⟩ st).1).store st.mat).data i j c
        = 0 := by
  refine ⟨rfl, ?_⟩
  intro P st p sid nm i j c ht hbnd hc
  show ((simpleThreshB p st).1.store st.mat).data i j c = 0
  simp only [simpleThreshB, allocMat, setStore, freeMat, upd_self,
    gray2rgba, rgba2gray, threshBin]
  rw [if_pos hc, ht]
  have hgle : grayOf ((st.store st.mat).data i j 0) ((st.store st.mat).data i j 1)
      ((st.store st.mat).data i j 2) ≤ 255 :=
    grayOf_le_255 _ _ _ (hbnd i j 0) (hbnd i j 1) (hbnd i j 2)
  have hno : ¬ (jsOr (some 255) 128 <
      (grayOf ((st.store st.mat).data i j 0) ((st.store st.mat).data i j 1)
        ((st.store st.mat).data i j 2) : ℚ)) := by
    rw [jsOr_some 255 128 (by norm_num)]
    have : ((grayOf ((st.store st.mat).data i j 0) ((st.store st.mat).data i j 1)
        ((st.store st.mat).data i j 2) : ℕ) : ℚ) ≤ 255 := by exact_mod_cast hgle
    linarith
  rw [if_neg hno]

/-- Witness for `thresh_extremes` at the concrete 2×2 gray buffer. -/
theorem thresh_extremes_witness :
    thr255Params.threshold = some 255 ∧
    (((runStep trivP ⟨"s6", "simple_thresh", thr255Params, "Simple Threshold"⟩
        initSt).1).store 0).data 0 0 0 = 0 := by
  refine ⟨rfl, ?_⟩
  have hb : ∀ a b d : ℕ, (initSt.store initSt.mat).data a b d ≤ 255 := by
    intro a b d
    simp only [initSt, upd_self, img22]
    split <;> norm_num
  exact thresh_extremes.2 trivP initSt thr255Params "s6" "Simple Threshold"
    0 0 0 rfl hb (by norm_num)

/-- The full-frame crop parameter set (X=0, Y=0, W=100%, H=100%). -/
def fullCropParams : TransformParams :=
  { cropX := some 0, cropY := some 0
    cropWidth := some 100, cropHeight := some 100 }

/-- C7: the crop branch floors the percentage rectangle and clamps it
(`x,y ≥ 0`, `w,h ≥ 1`); with X=0, Y=0, Width=100, Height=100 on any
nonempty buffer it succeeds and the new current buffer has unchanged
dimensions, channel count and pixel content. -/
theorem crop_full_identity (P : Provider) (st : RunSt) (p : TransformParams)
    (sid nm : String)
    (hx : p.cropX = some 0) (hy : p.cropY = some 0)
    (hw : p.cropWidth = some 100) (hh : p.cropHeight = some 100)
    (hr : 1 ≤ (st.store st.mat).rows) (hc : 1 ≤ (st.store st.mat).cols) :
    (runStep P ⟨sid, "crop", p, nm⟩ st).2 = none ∧
    ((runStep P ⟨sid, "crop", p, nm⟩ st).1.store
        (runStep P ⟨sid, "crop", p, nm⟩ st).1.mat).rows
      = (st.store st.mat).rows ∧
    ((runStep P ⟨sid, "crop", p, nm⟩ st).1.store
        (runStep P ⟨sid, "crop", p, nm⟩ st).1.mat).cols
      = (st.store st.mat).cols ∧
    ((runStep P ⟨sid, "crop", p, nm⟩ st).1.store
        (runStep P ⟨sid, "crop", p, nm⟩ st).1.mat).channels
      = (st.store st.mat).channels ∧
    ∀ i j c, ((runStep P ⟨sid, "crop", p, nm⟩ st).1.store
        (runStep P ⟨sid, "crop", p, nm⟩ st).1.mat).data i j c
      = (st.store st.mat).data i j c := by
  have hrun : runStep P ⟨sid, "crop", p, nm⟩ st = cropB p st := rfl
  have hx0 : (max 0 ⌊jsCoal p.cropX 0 / 100 * ((st.store st.mat).cols : ℚ)⌋).toNat
      = 0 := by
    rw [hx]; norm_num [jsCoal]
  have hy0 : (max 0 ⌊jsCoal p.cropY 0 / 100 * ((st.store st.mat).rows : ℚ)⌋).toNat
      = 0 := by
    rw [hy]; norm_num [jsCoal]
  have hwc : (max 1 ⌊jsCoal p.cropWidth 100 / 100 * ((st.store st.mat).cols : ℚ)⌋).toNat
      = (st.store st.mat).cols := by
    rw [hw]
    have : jsCoal (some (100 : ℚ)) 100 / 100 * ((st.store st.mat).cols : ℚ)
        = ((st.store st.mat).cols : ℚ) := by
      norm_num [jsCoal]
    rw [this, Int.floor_natCast]
    omega
  have hhr : (max 1 ⌊jsCoal p.cropHeight 100 / 100 * ((st.store st.mat).rows : ℚ)⌋).toNat
      = (st.store st.mat).rows := by
    rw [hh]
    have : jsCoal (some (100 : ℚ)) 100 / 100 * ((st.store st.mat).rows : ℚ)
        = ((st.store st.mat).rows : ℚ) := by
      norm_num [jsCoal]
    rw [this, Int.floor_natCast]
    omega
  rw [hrun]
  simp only [cropB, hx0, hy0, hwc, hhr]
  rw [if_pos (⟨by omega, by omega⟩ :
    0 + (st.store st.mat).cols ≤ (st.store st.mat).cols ∧
    0 + (st.store st.mat).rows ≤ (st.store st.mat).rows)]
  simp [allocMat, replaceCur, pushRel, freeMat, upd_self, roiImg]

/-- Witness for `crop_full_identity` at the concrete 2×2 buffer. -/
theorem crop_full_identity_witness :
    (1 ≤ (initSt.store initSt.mat).rows ∧ 1 ≤ (initSt.store initSt.mat).cols) ∧
    ((runStep trivP ⟨"s5", "crop", fullCropParams, "Crop"⟩ initSt).1.store
        (runStep trivP ⟨"s5", "crop", fullCropParams, "Crop"⟩ initSt).1.mat).rows
      = (initSt.store initSt.mat).rows := by
  have h := crop_full_identity trivP initSt fullCropParams "s5" "Crop"
    rfl rfl rfl rfl (by decide) (by decide)
  exact ⟨⟨by decide, by decide⟩, h.2.1⟩

/-- C8: the gamma branch maps every pixel of every channel through the
table `lut.data[i] = Math.pow(i/255, gamma) * 255` (a `Uint8` store,
i.e. floor on the in-range nonnegative values), and for any `pow`
satisfying `pow x 1 = x` — real exponentiation does — the
gamma = 1 table is the identity on `[0, 255]`. -/
theorem gamma_lut_spec :
    (∀ (P : Provider) (st : RunSt) (p : TransformParams) (sid nm : String)
       (i j c : ℕ),
       (((runStep P ⟨sid, "gamma", p, nm⟩ st).1).store st.mat).data i j c
         = gammaTable P.powf (jsCoal p.gamma 1) ((st.store st.mat).data i j c)) ∧
    (∀ powf : ℚ → ℚ → ℚ, (∀ x, powf x 1 = x) →
       ∀ i : ℕ, i ≤ 255 → gammaTable powf 1 i = i) := by
  constructor
  · intro P st p sid nm i j c
    show ((gammaB P p st).1.store st.mat).data i j c = _
    simp only [gammaB, allocMat, setStore, freeMat, upd_self, lutApply]
  · intro powf hp i hi
    unfold gammaTable
    rw [hp, div_mul_cancel₀ _ (by norm_num : (255 : ℚ) ≠ 0)]
    unfold toUint8 jsTrunc
    rw [if_pos (by positivity), Int.floor_natCast]
    omega

/-- Witness for `gamma_lut_spec` with the identity-on-exponent-1 pow. -/
theorem gamma_lut_spec_witness :
    (∀ x : ℚ, (fun (x : ℚ) (_ : ℚ) => x) x 1 = x) ∧
    gammaTable (fun (x : ℚ) (_ : ℚ) => x) 1 7 = 7 :=
  ⟨fun _ => rfl, gamma_lut_spec.2 (fun x _ => x) (fun _ => rfl) 7 (by norm_num)⟩

end ImageLab
